import Mathlib

/-!
Verification of the CAG chat system's adaptive prompt-fitting algorithm
(`generate_response` in `app.py`) against its natural-language specification.

The embedding models:
* chat messages (`{role, content}` dictionaries),
* Python's `chat_history[-history_limit:]` slice,
* prompt assembly (the four-section f-string of `app.py` lines 120-125),
* the fit loop (`app.py` lines 111-160) with an oracle environment for the
  two external calls (`model.count_tokens`, `model.generate_content`),
  producing both the returned string and a trace of external-call events,
* the caller's history-append step (`app.py` lines 280-300).
-/

namespace CAG

/-- A chat message: the `{"role": ..., "content": ...}` dictionaries stored in
`st.session_state.messages`. -/
structure Msg where
  role : String
  content : String
deriving DecidableEq, Repr

/-- Python `str.capitalize()`: first character uppercased, the remaining
characters lowercased (character by character, as Python does). -/
def pyCapitalize (s : String) : String :=
  match s.data with
  | [] => ""
  | c :: cs => String.mk (c.toUpper :: cs.map Char.toLower)

/-- Python slice `xs[-n:]` for a non-negative `n`, as used at `app.py` line 116
(`chat_history[-history_limit:]`).  Note Python's `-0` pitfall: for `n = 0`
the slice is `xs[0:]`, the WHOLE list, not the empty list. -/
def pySliceLast (xs : List Msg) (n : Nat) : List Msg :=
  if n = 0 then xs else xs.drop (xs.length - n)

/-- One history line, `f"{msg['role'].capitalize()}: {msg['content']}"`
(`app.py` line 117). -/
def formatMsg (m : Msg) : String := pyCapitalize m.role ++ ": " ++ m.content

/-- `"\n".join(...)` over the formatted recent history (`app.py` line 117). -/
def formatHistory (ms : List Msg) : String :=
  String.intercalate "\n" (ms.map formatMsg)

/-- `CONTEXT_WINDOW_LIMIT` from `app.py` line 95. -/
def CONTEXT_WINDOW_LIMIT : Nat := 1000000

/-- Helper for `commaSep`: group a (reversed) digit list into blocks of three. -/
def chunk3 : List Char → List (List Char)
  | [] => []
  | a :: b :: c :: rest => [a, b, c] :: chunk3 rest
  | xs => [xs]

/-- Python's thousands-separator format `f"{n:,}"` for a natural number. -/
def commaSep (n : Nat) : String :=
  String.mk (List.intercalate [','] (chunk3 (toString n).data.reverse)).reverse

/-- The assembled prompt, mirroring the four adjacent f-string literals of
`app.py` lines 120-125 (one parenthesised group per source line). -/
def full_prompt (system_prompt formatted_history document_text user_prompt : String) : String :=
  ("System Prompt:\n---\n" ++ system_prompt ++ "\n---\n\n") ++
  ("Chat History:\n---\n" ++ formatted_history ++ "\n---\n\n") ++
  ("Document Content:\n---\n" ++ document_text ++ "\n---\n\n") ++
  ("User Question: " ++ user_prompt)

/-- Outcome of `model.generate_content(p)` followed by the `response.text`
access (`app.py` lines 134-142): normal text, a `ValueError` from a blocked
response, or any other exception. -/
inductive GenOutcome where
  | text (s : String)
  | blocked
  | exn (e : String)
deriving DecidableEq, Repr

/-- The state `generate_response` reads besides its arguments: the session's
credential state and the two external model capabilities, modelled as
deterministic oracles.  `count_tokens p = .error e` models
`model.count_tokens(p)` raising exception `e`. -/
structure Env where
  api_key_valid : Bool
  current_api_key : Option String
  modelInitialized : Bool
  count_tokens : String → Except String Nat
  generate_content : String → GenOutcome

/-- Python truthiness of `st.session_state.current_api_key`
(`None` and `""` are falsy). -/
def pyStrTruthy : Option String → Bool
  | none => false
  | some s => !(s == "")

/-- Python `s.startswith(p)` (`app.py` line 299). -/
def pyStartsWith (s p : String) : Bool := p.data.isPrefixOf s.data

deriving instance DecidableEq for Except

/-- External-call events of one `generate_response` execution, in order:
a `model.count_tokens` call (with the window size in force and its result)
or a `model.generate_content` call. -/
inductive Event where
  | count (window : Nat) (prompt : String) (result : Except String Nat)
  | gen (window : Nat) (prompt : String)
deriving DecidableEq, Repr

/-- The prompt an external call was issued with. -/
def promptOf : Event → String
  | .count _ p _ => p
  | .gen _ p => p

/-- The sequence of history-window sizes visited (one per token-count call). -/
def windowSizes (tr : List Event) : List Nat :=
  tr.filterMap fun e =>
    match e with
    | .count w _ _ => some w
    | .gen _ _ => none

/-- One iteration of the fit-loop body at window size `hl`
(`app.py` lines 114-142): slice the history, assemble, count tokens, and if
within the limit issue the generation call.  Returns `.inl (result, events)`
when the iteration returns from the function (success string or a terminal
error), and `.inr (n, countEvent)` when the prompt overflowed with measured
token count `n`, so the loop must shrink or stop. -/
def fitStep (env : Env) (user_prompt document_text system_prompt : String)
    (chat_history : List Msg) (hl : Nat) :
    (String × List Event) ⊕ (Nat × Event) :=
  let recent_history := pySliceLast chat_history hl
  let formatted_history := formatHistory recent_history
  let fp := full_prompt system_prompt formatted_history document_text user_prompt
  match env.count_tokens fp with
  | .error e =>
      .inl ("Error during processing (history=" ++ toString hl ++ "): " ++ e,
            [.count hl fp (.error e)])
  | .ok n =>
      if n ≤ CONTEXT_WINDOW_LIMIT then
        .inl
          ((match env.generate_content fp with
            | .text s => s
            | .blocked => "Error: Response blocked or invalid."
            | .exn e => "Error during processing (history=" ++ toString hl ++ "): " ++ e),
           [.count hl fp (.ok n), .gen hl fp])
      else
        .inr (n, .count hl fp (.ok n))

/-- The `while history_limit >= 0` loop of `app.py` lines 113-160, started at
history limit `hl`.  On overflow with `hl > 0` the limit drops by 2
(line 148); at `hl = 0` it returns the over-budget error (line 152); starting
from `hl = 1` an overflow would make Python's `history_limit` negative, so
the loop exits and line 160's fallback fires.  Returns the response string
and the trace of external calls. -/
def fitLoop (env : Env) (user_prompt document_text system_prompt : String)
    (chat_history : List Msg) : Nat → String × List Event
  | 0 =>
    match fitStep env user_prompt document_text system_prompt chat_history 0 with
    | .inl r => r
    | .inr (n, ev) =>
        ("Error: Prompt exceeds token limit (" ++ commaSep n ++ " / " ++
           commaSep CONTEXT_WINDOW_LIMIT ++ ") even without history.", [ev])
  | 1 =>
    match fitStep env user_prompt document_text system_prompt chat_history 1 with
    | .inl r => r
    | .inr (_, ev) =>
        ("Error: Failed to generate response after checking prompt size.", [ev])
  | (hl + 2) =>
    match fitStep env user_prompt document_text system_prompt chat_history (hl + 2) with
    | .inl r => r
    | .inr (_, ev) =>
        let rest := fitLoop env user_prompt document_text system_prompt chat_history hl
        (rest.1, ev :: rest.2)

/-- `generate_response` (`app.py` lines 98-160): precondition checks, then the
fit loop started at `history_limit = 8` (line 112).  Returns the response
string and the trace of external calls. -/
def generate_response (env : Env) (user_prompt document_text : String)
    (chat_history : List Msg) (system_prompt : String) : String × List Event :=
  if env.api_key_valid = false ∨ pyStrTruthy env.current_api_key = false then
    ("Error: API Key not configured or invalid.", [])
  else if env.modelInitialized = false then
    ("Error: Model not initialized.", [])
  else if document_text = "" then
    ("Error: No document content available.", [])
  else
    fitLoop env user_prompt document_text system_prompt chat_history 8

/-- One chat turn of the caller (`app.py` lines 280-300): append the user
message, call `generate_response` (guarded by the document-content truthiness
check of line 288), and append the assistant response to the persisted
history only when it does not start with `"Error:"` (lines 298-300). -/
def chatTurn (env : Env) (messages : List Msg)
    (prompt document_content system_prompt : String) : List Msg × Option String :=
  let messages1 := messages ++ [⟨"user", prompt⟩]
  if document_content = "" then
    (messages1, none)
  else
    let response := (generate_response env prompt document_content messages1 system_prompt).1
    if pyStartsWith response "Error:" = true then
      (messages1, some response)
    else
      (messages1 ++ [⟨"assistant", response⟩], some response)

/-- The prompt assembled at window size `w`: `full_prompt` applied to the
formatted `w`-window of the history (the `fp` local of `fitStep`). -/
def attemptPrompt (user_prompt document_text system_prompt : String)
    (chat_history : List Msg) (w : Nat) : String :=
  full_prompt system_prompt (formatHistory (pySliceLast chat_history w))
    document_text user_prompt

/-- Spec §4.1: the system-instruction section of the assembled prompt. -/
def specSystemSection (s : String) : String := "System Prompt:\n---\n" ++ s ++ "\n---\n\n"

/-- Spec §4.1: the chat-history section of the assembled prompt. -/
def specHistorySection (h : String) : String := "Chat History:\n---\n" ++ h ++ "\n---\n\n"

/-- Spec §4.1: the document-content section of the assembled prompt. -/
def specDocumentSection (d : String) : String := "Document Content:\n---\n" ++ d ++ "\n---\n\n"

/-- Spec §4.1: the user-question section of the assembled prompt. -/
def specQuestionSection (q : String) : String := "User Question: " ++ q

/-! ## Helper lemmas -/

lemma data_append (s t : String) : (s ++ t).data = s.data ++ t.data := rfl

lemma isPrefixOf_append (p l t : List Char) (h : p.isPrefixOf l = true) :
    p.isPrefixOf (l ++ t) = true := by
  induction p generalizing l with
  | nil => simp [List.isPrefixOf]
  | cons a p ih =>
    cases l with
    | nil => simp [List.isPrefixOf] at h
    | cons b l =>
      simp only [List.cons_append]
      simp only [List.isPrefixOf, Bool.and_eq_true] at h ⊢
      exact ⟨h.1, ih l h.2⟩

lemma pyStartsWith_append (s t p : String) (h : pyStartsWith s p = true) :
    pyStartsWith (s ++ t) p = true :=
  isPrefixOf_append p.data s.data t.data h

/-- The assembled prompt is exactly the four spec sections in fixed order. -/
lemma full_prompt_sections (s h d q : String) :
    full_prompt s h d q =
      specSystemSection s ++ specHistorySection h ++ specDocumentSection d ++
        specQuestionSection q := rfl

/-- Exhaustive case analysis of one fit-loop iteration: the token count call
either raises, or succeeds within the limit (and the generation call is
issued), or succeeds over the limit (overflow). -/
lemma fitStep_cases (env : Env) (up dt sp : String) (ch : List Msg) (hl : Nat) :
    (∃ e, env.count_tokens (attemptPrompt up dt sp ch hl) = .error e ∧
        fitStep env up dt sp ch hl = .inl
          ("Error during processing (history=" ++ toString hl ++ "): " ++ e,
           [.count hl (attemptPrompt up dt sp ch hl) (.error e)]))
  ∨ (∃ n r, env.count_tokens (attemptPrompt up dt sp ch hl) = .ok n ∧
        n ≤ CONTEXT_WINDOW_LIMIT ∧
        (env.generate_content (attemptPrompt up dt sp ch hl) = .text r ∨
          pyStartsWith r "Error" = true) ∧
        fitStep env up dt sp ch hl = .inl
          (r, [.count hl (attemptPrompt up dt sp ch hl) (.ok n),
               .gen hl (attemptPrompt up dt sp ch hl)]))
  ∨ (∃ n, env.count_tokens (attemptPrompt up dt sp ch hl) = .ok n ∧
        ¬ n ≤ CONTEXT_WINDOW_LIMIT ∧
        fitStep env up dt sp ch hl = .inr (n, .count hl (attemptPrompt up dt sp ch hl) (.ok n))) := by
  cases hct : env.count_tokens (attemptPrompt up dt sp ch hl) with
  | error e =>
    left
    refine ⟨e, rfl, ?_⟩
    simp only [fitStep, attemptPrompt] at hct ⊢
    rw [hct]
  | ok n =>
    by_cases hn : n ≤ CONTEXT_WINDOW_LIMIT
    · right; left
      cases hg : env.generate_content (attemptPrompt up dt sp ch hl) with
      | text s =>
        refine ⟨n, s, rfl, hn, Or.inl rfl, ?_⟩
        simp only [fitStep, attemptPrompt] at hct hg ⊢
        rw [hct]
        simp [hn, hg]
      | blocked =>
        refine ⟨n, "Error: Response blocked or invalid.", rfl, hn, Or.inr (by decide), ?_⟩
        simp only [fitStep, attemptPrompt] at hct hg ⊢
        rw [hct]
        simp [hn, hg]
      | exn e =>
        refine ⟨n, "Error during processing (history=" ++ toString hl ++ "): " ++ e,
          rfl, hn, Or.inr ?_, ?_⟩
        · exact pyStartsWith_append _ e _
            (pyStartsWith_append _ "): " _
              (pyStartsWith_append _ (toString hl) _ (by decide)))
        · simp only [fitStep, attemptPrompt] at hct hg ⊢
          rw [hct]
          simp [hn, hg]
    · right; right
      refine ⟨n, rfl, hn, ?_⟩
      simp only [fitStep, attemptPrompt] at hct ⊢
      rw [hct]
      simp [hn]

lemma fitLoop_zero (env : Env) (up dt sp : String) (ch : List Msg) :
    fitLoop env up dt sp ch 0 =
      match fitStep env up dt sp ch 0 with
      | .inl r => r
      | .inr (n, ev) =>
          ("Error: Prompt exceeds token limit (" ++ commaSep n ++ " / " ++
             commaSep CONTEXT_WINDOW_LIMIT ++ ") even without history.", [ev]) := rfl

lemma fitLoop_one (env : Env) (up dt sp : String) (ch : List Msg) :
    fitLoop env up dt sp ch 1 =
      match fitStep env up dt sp ch 1 with
      | .inl r => r
      | .inr (_, ev) =>
          ("Error: Failed to generate response after checking prompt size.", [ev]) := rfl

lemma fitLoop_add_two (env : Env) (up dt sp : String) (ch : List Msg) (m : Nat) :
    fitLoop env up dt sp ch (m + 2) =
      match fitStep env up dt sp ch (m + 2) with
      | .inl r => r
      | .inr (_, ev) =>
          ((fitLoop env up dt sp ch m).1, ev :: (fitLoop env up dt sp ch m).2) := rfl

/-- What a `.inl` result of `fitStep` must look like: either the token count
raised, or it fit and the generation call was issued. -/
lemma fitStep_inl (env : Env) (up dt sp : String) (ch : List Msg) (hl : Nat)
    (r : String × List Event) (h : fitStep env up dt sp ch hl = .inl r) :
    (∃ e, env.count_tokens (attemptPrompt up dt sp ch hl) = .error e ∧
        r = ("Error during processing (history=" ++ toString hl ++ "): " ++ e,
             [.count hl (attemptPrompt up dt sp ch hl) (.error e)]))
  ∨ (∃ n s, env.count_tokens (attemptPrompt up dt sp ch hl) = .ok n ∧
        n ≤ CONTEXT_WINDOW_LIMIT ∧
        (env.generate_content (attemptPrompt up dt sp ch hl) = .text s ∨
          pyStartsWith s "Error" = true) ∧
        r = (s, [.count hl (attemptPrompt up dt sp ch hl) (.ok n),
                 .gen hl (attemptPrompt up dt sp ch hl)])) := by
  rcases fitStep_cases env up dt sp ch hl with ⟨e, hct, hstep⟩ | ⟨n, s, hct, hn, hr, hstep⟩ |
    ⟨n, hct, hn, hstep⟩ <;> rw [h] at hstep
  · injection hstep with h2
    exact Or.inl ⟨e, hct, h2⟩
  · injection hstep with h2
    exact Or.inr ⟨n, s, hct, hn, hr, h2⟩
  · exact Sum.noConfusion hstep

/-- What a `.inr` (overflow) result of `fitStep` must look like. -/
lemma fitStep_inr (env : Env) (up dt sp : String) (ch : List Msg) (hl n : Nat)
    (ev : Event) (h : fitStep env up dt sp ch hl = .inr (n, ev)) :
    env.count_tokens (attemptPrompt up dt sp ch hl) = .ok n ∧
    ¬ n ≤ CONTEXT_WINDOW_LIMIT ∧
    ev = .count hl (attemptPrompt up dt sp ch hl) (.ok n) := by
  rcases fitStep_cases env up dt sp ch hl with ⟨e, hct, hstep⟩ | ⟨n', s, hct, hn, hr, hstep⟩ |
    ⟨n', hct, hn, hstep⟩ <;> rw [h] at hstep
  · exact Sum.noConfusion hstep
  · exact Sum.noConfusion hstep
  · injection hstep with h2
    injection h2 with h3 h4
    subst h3
    exact ⟨hct, hn, h4⟩

lemma windowSizes_nil : windowSizes [] = [] := rfl

lemma windowSizes_cons_count (w : Nat) (p : String) (r : Except String Nat)
    (tr : List Event) : windowSizes (.count w p r :: tr) = w :: windowSizes tr := by
  simp [windowSizes, List.filterMap_cons]

lemma windowSizes_cons_gen (w : Nat) (p : String) (tr : List Event) :
    windowSizes (.gen w p :: tr) = windowSizes tr := by
  simp [windowSizes, List.filterMap_cons]

/-- The `"Error during processing (history=N): e"` message starts with `"Error"`. -/
lemma startsWithError_processing (hl : Nat) (e : String) :
    pyStartsWith ("Error during processing (history=" ++ toString hl ++ "): " ++ e)
      "Error" = true :=
  pyStartsWith_append _ e _ (pyStartsWith_append _ "): " _
    (pyStartsWith_append _ (toString hl) _ (by decide)))

/-- Every prompt ever assembled during the fit loop is an `attemptPrompt`:
the same system prompt, document text and user question every iteration,
with only the history window size varying. -/
lemma fitLoop_prompts (env : Env) (up dt sp : String) (ch : List Msg) (hl : Nat) :
    ∀ e ∈ (fitLoop env up dt sp ch hl).2,
      ∃ w, promptOf e = attemptPrompt up dt sp ch w := by
  induction hl using fitLoop.induct env up dt sp ch with
  | case1 r hstep =>
    rw [fitLoop_zero, hstep]
    rcases fitStep_inl env up dt sp ch 0 r hstep with ⟨e', hct, hr⟩ | ⟨n, s, hct, hn, hg, hr⟩ <;>
      subst hr <;> intro e he <;> simp only [List.mem_cons, List.mem_singleton,
        List.not_mem_nil, or_false] at he
    · exact ⟨0, by rw [he]; rfl⟩
    · rcases he with he | he <;> exact ⟨0, by rw [he]; rfl⟩
  | case2 n ev hstep =>
    obtain ⟨hct, hn, hev⟩ := fitStep_inr env up dt sp ch 0 n ev hstep
    rw [fitLoop_zero, hstep]
    intro e he
    simp only [List.mem_singleton] at he
    exact ⟨0, by rw [he, hev]; rfl⟩
  | case3 r hstep =>
    rw [fitLoop_one, hstep]
    rcases fitStep_inl env up dt sp ch 1 r hstep with ⟨e', hct, hr⟩ | ⟨n, s, hct, hn, hg, hr⟩ <;>
      subst hr <;> intro e he <;> simp only [List.mem_cons, List.mem_singleton,
        List.not_mem_nil, or_false] at he
    · exact ⟨1, by rw [he]; rfl⟩
    · rcases he with he | he <;> exact ⟨1, by rw [he]; rfl⟩
  | case4 n ev hstep =>
    obtain ⟨hct, hn, hev⟩ := fitStep_inr env up dt sp ch 1 n ev hstep
    rw [fitLoop_one, hstep]
    intro e he
    simp only [List.mem_singleton] at he
    exact ⟨1, by rw [he, hev]; rfl⟩
  | case5 m r hstep =>
    have e2 : Nat.succ (Nat.succ m) = m + 2 := rfl
    rw [e2, fitLoop_add_two, hstep]
    rcases fitStep_inl env up dt sp ch (m + 2) r hstep with ⟨e', hct, hr⟩ |
      ⟨n, s, hct, hn, hg, hr⟩ <;> subst hr <;> intro e he <;>
      simp only [List.mem_cons, List.mem_singleton, List.not_mem_nil, or_false] at he
    · exact ⟨m + 2, by rw [he]; rfl⟩
    · rcases he with he | he <;> exact ⟨m + 2, by rw [he]; rfl⟩
  | case6 m n ev hstep ih =>
    obtain ⟨hct, hn, hev⟩ := fitStep_inr env up dt sp ch (m + 2) n ev hstep
    have e2 : Nat.succ (Nat.succ m) = m + 2 := rfl
    rw [e2, fitLoop_add_two, hstep]
    intro e he
    simp only [List.mem_cons] at he
    rcases he with he | he
    · exact ⟨m + 2, by rw [he, hev]; rfl⟩
    · exact ih e he

/-- The window sizes visited by the fit loop started at `hl` are exactly
`hl, hl - 2, …` down to `hl - 2k`, with `2k ≤ hl + 1` (so the last visited
value is `0` or `1`, never "negative"). -/
lemma fitLoop_windowSizes (env : Env) (up dt sp : String) (ch : List Msg) (hl : Nat) :
    ∃ k, 2 * k ≤ hl + 1 ∧
      windowSizes (fitLoop env up dt sp ch hl).2 =
        (List.range (k + 1)).map (fun i => hl - 2 * i) := by
  induction hl using fitLoop.induct env up dt sp ch with
  | case1 r hstep =>
    refine ⟨0, by omega, ?_⟩
    rw [fitLoop_zero, hstep]
    rcases fitStep_inl env up dt sp ch 0 r hstep with ⟨e', hct, hr⟩ |
      ⟨n, s, hct, hn, hg, hr⟩ <;> subst hr <;>
      simp [windowSizes_cons_count, windowSizes_cons_gen, windowSizes_nil, List.range_succ]
  | case2 n ev hstep =>
    obtain ⟨hct, hn, hev⟩ := fitStep_inr env up dt sp ch 0 n ev hstep
    refine ⟨0, by omega, ?_⟩
    rw [fitLoop_zero, hstep, hev]
    simp [windowSizes_cons_count, windowSizes_nil, List.range_succ]
  | case3 r hstep =>
    refine ⟨0, by omega, ?_⟩
    rw [fitLoop_one, hstep]
    rcases fitStep_inl env up dt sp ch 1 r hstep with ⟨e', hct, hr⟩ |
      ⟨n, s, hct, hn, hg, hr⟩ <;> subst hr <;>
      simp [windowSizes_cons_count, windowSizes_cons_gen, windowSizes_nil, List.range_succ]
  | case4 n ev hstep =>
    obtain ⟨hct, hn, hev⟩ := fitStep_inr env up dt sp ch 1 n ev hstep
    refine ⟨0, by omega, ?_⟩
    rw [fitLoop_one, hstep, hev]
    simp [windowSizes_cons_count, windowSizes_nil, List.range_succ]
  | case5 m r hstep =>
    refine ⟨0, by omega, ?_⟩
    have e2 : Nat.succ (Nat.succ m) = m + 2 := rfl
    rw [e2, fitLoop_add_two, hstep]
    rcases fitStep_inl env up dt sp ch (m + 2) r hstep with ⟨e', hct, hr⟩ |
      ⟨n, s, hct, hn, hg, hr⟩ <;> subst hr <;>
      simp [windowSizes_cons_count, windowSizes_cons_gen, windowSizes_nil, List.range_succ]
  | case6 m n ev hstep ih =>
    obtain ⟨hct, hn, hev⟩ := fitStep_inr env up dt sp ch (m + 2) n ev hstep
    obtain ⟨k, hk, hws⟩ := ih
    refine ⟨k + 1, by omega, ?_⟩
    have e2 : Nat.succ (Nat.succ m) = m + 2 := rfl
    rw [e2, fitLoop_add_two, hstep, hev]
    rw [windowSizes_cons_count, hws]
    have hmap : List.map ((fun i => m + 2 - 2 * i) ∘ Nat.succ) (List.range (k + 1)) =
        List.map (fun i => m - 2 * i) (List.range (k + 1)) :=
      List.map_congr_left fun i _ => by simp only [Function.comp_apply]; omega
    conv_rhs => rw [List.range_succ_eq_map, List.map_cons, List.map_map]
    rw [hmap]
    simp

/-- Every generation event in the fit-loop trace is immediately preceded by a
token-count event for the same prompt whose measured count is within the
limit. -/
lemma fitLoop_gen_preceded (env : Env) (up dt sp : String) (ch : List Msg) (hl : Nat) :
    ∀ i w p, ((fitLoop env up dt sp ch hl).2)[i]? = some (.gen w p) →
      1 ≤ i ∧ ∃ n, ((fitLoop env up dt sp ch hl).2)[i - 1]? =
        some (.count w p (.ok n)) ∧ n ≤ CONTEXT_WINDOW_LIMIT := by
  induction hl using fitLoop.induct env up dt sp ch with
  | case1 r hstep =>
    rw [fitLoop_zero, hstep]
    rcases fitStep_inl env up dt sp ch 0 r hstep with ⟨e', hct, hr⟩ |
      ⟨n, s, hct, hn, hg, hr⟩ <;> subst hr <;> intro i w p hi
    · rcases i with _ | i <;> simp at hi
    · rcases i with _ | (_ | i)
      · simp at hi
      · simp only [List.getElem?_cons_succ, List.getElem?_cons_zero,
          Option.some.injEq] at hi
        obtain ⟨hw, hp⟩ : 0 = w ∧ attemptPrompt up dt sp ch 0 = p := by
          cases hi; exact ⟨rfl, rfl⟩
        subst hw; subst hp
        exact ⟨by omega, n, by simp, hn⟩
      · simp at hi
  | case2 n ev hstep =>
    obtain ⟨hct, hn, hev⟩ := fitStep_inr env up dt sp ch 0 n ev hstep
    rw [fitLoop_zero, hstep, hev]
    intro i w p hi
    rcases i with _ | i <;> simp at hi
  | case3 r hstep =>
    rw [fitLoop_one, hstep]
    rcases fitStep_inl env up dt sp ch 1 r hstep with ⟨e', hct, hr⟩ |
      ⟨n, s, hct, hn, hg, hr⟩ <;> subst hr <;> intro i w p hi
    · rcases i with _ | i <;> simp at hi
    · rcases i with _ | (_ | i)
      · simp at hi
      · simp only [List.getElem?_cons_succ, List.getElem?_cons_zero,
          Option.some.injEq] at hi
        obtain ⟨hw, hp⟩ : 1 = w ∧ attemptPrompt up dt sp ch 1 = p := by
          cases hi; exact ⟨rfl, rfl⟩
        subst hw; subst hp
        exact ⟨by omega, n, by simp, hn⟩
      · simp at hi
  | case4 n ev hstep =>
    obtain ⟨hct, hn, hev⟩ := fitStep_inr env up dt sp ch 1 n ev hstep
    rw [fitLoop_one, hstep, hev]
    intro i w p hi
    rcases i with _ | i <;> simp at hi
  | case5 m r hstep =>
    have e2 : Nat.succ (Nat.succ m) = m + 2 := rfl
    rw [e2, fitLoop_add_two, hstep]
    rcases fitStep_inl env up dt sp ch (m + 2) r hstep with ⟨e', hct, hr⟩ |
      ⟨n, s, hct, hn, hg, hr⟩ <;> subst hr <;> intro i w p hi
    · rcases i with _ | i <;> simp at hi
    · rcases i with _ | (_ | i)
      · simp at hi
      · simp only [List.getElem?_cons_succ, List.getElem?_cons_zero,
          Option.some.injEq] at hi
        obtain ⟨hw, hp⟩ : m + 2 = w ∧ attemptPrompt up dt sp ch (m + 2) = p := by
          cases hi; exact ⟨rfl, rfl⟩
        subst hw; subst hp
        exact ⟨by omega, n, by simp, hn⟩
      · simp at hi
  | case6 m n ev hstep ih =>
    obtain ⟨hct, hn, hev⟩ := fitStep_inr env up dt sp ch (m + 2) n ev hstep
    have e2 : Nat.succ (Nat.succ m) = m + 2 := rfl
    rw [e2, fitLoop_add_two, hstep, hev]
    intro i w p hi
    rcases i with _ | i
    · simp at hi
    · rw [List.getElem?_cons_succ] at hi
      obtain ⟨h1, n', hc, hn'⟩ := ih i w p hi
      refine ⟨by omega, n', ?_, hn'⟩
      obtain ⟨j, rfl⟩ : ∃ j, i = j + 1 := ⟨i - 1, by omega⟩
      simp only [Nat.add_sub_cancel] at hc ⊢
      rw [List.getElem?_cons_succ]
      exact hc

/-- The fit loop's returned string either starts with `"Error"` or is the
text of a successful generation call recorded in the trace. -/
lemma fitLoop_result (env : Env) (up dt sp : String) (ch : List Msg) (hl : Nat) :
    pyStartsWith (fitLoop env up dt sp ch hl).1 "Error" = true ∨
    ∃ w p, Event.gen w p ∈ (fitLoop env up dt sp ch hl).2 ∧
      env.generate_content p = .text (fitLoop env up dt sp ch hl).1 := by
  induction hl using fitLoop.induct env up dt sp ch with
  | case1 r hstep =>
    rw [fitLoop_zero, hstep]
    rcases fitStep_inl env up dt sp ch 0 r hstep with ⟨e', hct, hr⟩ |
      ⟨n, s, hct, hn, hg, hr⟩ <;> subst hr
    · exact Or.inl (startsWithError_processing 0 e')
    · rcases hg with hg | hg
      · exact Or.inr ⟨0, attemptPrompt up dt sp ch 0, by simp, hg⟩
      · exact Or.inl hg
  | case2 n ev hstep =>
    rw [fitLoop_zero, hstep]
    exact Or.inl (pyStartsWith_append _ _ _ (pyStartsWith_append _ _ _
      (pyStartsWith_append _ _ _ (pyStartsWith_append _ _ _ (by decide)))))
  | case3 r hstep =>
    rw [fitLoop_one, hstep]
    rcases fitStep_inl env up dt sp ch 1 r hstep with ⟨e', hct, hr⟩ |
      ⟨n, s, hct, hn, hg, hr⟩ <;> subst hr
    · exact Or.inl (startsWithError_processing 1 e')
    · rcases hg with hg | hg
      · exact Or.inr ⟨1, attemptPrompt up dt sp ch 1, by simp, hg⟩
      · exact Or.inl hg
  | case4 n ev hstep =>
    rw [fitLoop_one, hstep]
    refine Or.inl ?_
    show pyStartsWith "Error: Failed to generate response after checking prompt size."
      "Error" = true
    decide
  | case5 m r hstep =>
    have e2 : Nat.succ (Nat.succ m) = m + 2 := rfl
    rw [e2, fitLoop_add_two, hstep]
    rcases fitStep_inl env up dt sp ch (m + 2) r hstep with ⟨e', hct, hr⟩ |
      ⟨n, s, hct, hn, hg, hr⟩ <;> subst hr
    · exact Or.inl (startsWithError_processing (m + 2) e')
    · rcases hg with hg | hg
      · exact Or.inr ⟨m + 2, attemptPrompt up dt sp ch (m + 2), by simp, hg⟩
      · exact Or.inl hg
  | case6 m n ev hstep ih =>
    have e2 : Nat.succ (Nat.succ m) = m + 2 := rfl
    rw [e2, fitLoop_add_two, hstep]
    rcases ih with h | ⟨w, p, hmem, hgen⟩
    · exact Or.inl h
    · exact Or.inr ⟨w, p, List.mem_cons_of_mem _ hmem, hgen⟩

/-- The exact value of `fitStep` when the token count fits the limit: the
generation call is issued and its outcome selects the returned string. -/
lemma fitStep_gen (env : Env) (up dt sp : String) (ch : List Msg) (hl n : Nat)
    (hct : env.count_tokens (attemptPrompt up dt sp ch hl) = .ok n)
    (hn : n ≤ CONTEXT_WINDOW_LIMIT) :
    fitStep env up dt sp ch hl = .inl
      ((match env.generate_content (attemptPrompt up dt sp ch hl) with
        | .text s => s
        | .blocked => "Error: Response blocked or invalid."
        | .exn e => "Error during processing (history=" ++ toString hl ++ "): " ++ e),
       [.count hl (attemptPrompt up dt sp ch hl) (.ok n),
        .gen hl (attemptPrompt up dt sp ch hl)]) := by
  simp only [fitStep, attemptPrompt] at hct ⊢
  rw [hct]
  simp [hn]

/-- A generation event in the fit-loop trace is always the last event of the
trace — once generation is issued the loop never counts or shrinks again, at
whatever window size it happened — and a blocked or raising generation
determines the returned terminal error string. -/
lemma fitLoop_gen_terminal (env : Env) (up dt sp : String) (ch : List Msg) (hl : Nat) :
    ∀ i w p, ((fitLoop env up dt sp ch hl).2)[i]? = some (.gen w p) →
      i + 1 = (fitLoop env up dt sp ch hl).2.length ∧
      (env.generate_content p = .blocked →
        (fitLoop env up dt sp ch hl).1 = "Error: Response blocked or invalid.") ∧
      (∀ e, env.generate_content p = .exn e →
        (fitLoop env up dt sp ch hl).1 =
          "Error during processing (history=" ++ toString w ++ "): " ++ e) := by
  induction hl using fitLoop.induct env up dt sp ch with
  | case1 r hstep =>
    rw [fitLoop_zero, hstep]
    rcases fitStep_inl env up dt sp ch 0 r hstep with ⟨e', hct, hr⟩ |
      ⟨n, s, hct, hn, hg, hr⟩ <;> subst hr
    · intro i w p hi
      rcases i with _ | i <;> simp at hi
    · have h2 := fitStep_gen env up dt sp ch 0 n hct hn
      rw [hstep] at h2
      injection h2 with h3
      have hs : s = (match env.generate_content (attemptPrompt up dt sp ch 0) with
          | .text s0 => s0
          | .blocked => "Error: Response blocked or invalid."
          | .exn e => "Error during processing (history=" ++ toString (0 : Nat) ++ "): " ++ e) :=
        congrArg Prod.fst h3
      intro i w p hi
      rcases i with _ | (_ | i)
      · simp at hi
      · simp only [List.getElem?_cons_succ, List.getElem?_cons_zero,
          Option.some.injEq] at hi
        obtain ⟨hw, hp⟩ : 0 = w ∧ attemptPrompt up dt sp ch 0 = p := by
          cases hi; exact ⟨rfl, rfl⟩
        subst hw; subst hp
        refine ⟨by simp, ?_, ?_⟩
        · intro hb
          rw [hb] at hs
          simp only [] at hs
          exact hs
        · intro e he
          rw [he] at hs
          simp only [] at hs
          exact hs
      · simp at hi
  | case2 n ev hstep =>
    obtain ⟨hct, hn, hev⟩ := fitStep_inr env up dt sp ch 0 n ev hstep
    rw [fitLoop_zero, hstep, hev]
    intro i w p hi
    rcases i with _ | i <;> simp at hi
  | case3 r hstep =>
    rw [fitLoop_one, hstep]
    rcases fitStep_inl env up dt sp ch 1 r hstep with ⟨e', hct, hr⟩ |
      ⟨n, s, hct, hn, hg, hr⟩ <;> subst hr
    · intro i w p hi
      rcases i with _ | i <;> simp at hi
    · have h2 := fitStep_gen env up dt sp ch 1 n hct hn
      rw [hstep] at h2
      injection h2 with h3
      have hs : s = (match env.generate_content (attemptPrompt up dt sp ch 1) with
          | .text s0 => s0
          | .blocked => "Error: Response blocked or invalid."
          | .exn e => "Error during processing (history=" ++ toString (1 : Nat) ++ "): " ++ e) :=
        congrArg Prod.fst h3
      intro i w p hi
      rcases i with _ | (_ | i)
      · simp at hi
      · simp only [List.getElem?_cons_succ, List.getElem?_cons_zero,
          Option.some.injEq] at hi
        obtain ⟨hw, hp⟩ : 1 = w ∧ attemptPrompt up dt sp ch 1 = p := by
          cases hi; exact ⟨rfl, rfl⟩
        subst hw; subst hp
        refine ⟨by simp, ?_, ?_⟩
        · intro hb
          rw [hb] at hs
          simp only [] at hs
          exact hs
        · intro e he
          rw [he] at hs
          simp only [] at hs
          exact hs
      · simp at hi
  | case4 n ev hstep =>
    obtain ⟨hct, hn, hev⟩ := fitStep_inr env up dt sp ch 1 n ev hstep
    rw [fitLoop_one, hstep, hev]
    intro i w p hi
    rcases i with _ | i <;> simp at hi
  | case5 m r hstep =>
    have e2 : Nat.succ (Nat.succ m) = m + 2 := rfl
    rw [e2, fitLoop_add_two, hstep]
    rcases fitStep_inl env up dt sp ch (m + 2) r hstep with ⟨e', hct, hr⟩ |
      ⟨n, s, hct, hn, hg, hr⟩ <;> subst hr
    · intro i w p hi
      rcases i with _ | i <;> simp at hi
    · have h2 := fitStep_gen env up dt sp ch (m + 2) n hct hn
      rw [hstep] at h2
      injection h2 with h3
      have hs : s = (match env.generate_content (attemptPrompt up dt sp ch (m + 2)) with
          | .text s0 => s0
          | .blocked => "Error: Response blocked or invalid."
          | .exn e => "Error during processing (history=" ++ toString (m + 2) ++ "): " ++ e) :=
        congrArg Prod.fst h3
      intro i w p hi
      rcases i with _ | (_ | i)
      · simp at hi
      · simp only [List.getElem?_cons_succ, List.getElem?_cons_zero,
          Option.some.injEq] at hi
        obtain ⟨hw, hp⟩ : m + 2 = w ∧ attemptPrompt up dt sp ch (m + 2) = p := by
          cases hi; exact ⟨rfl, rfl⟩
        subst hw; subst hp
        refine ⟨by simp, ?_, ?_⟩
        · intro hb
          rw [hb] at hs
          simp only [] at hs
          exact hs
        · intro e he
          rw [he] at hs
          simp only [] at hs
          exact hs
      · simp at hi
  | case6 m n ev hstep ih =>
    obtain ⟨hct, hn, hev⟩ := fitStep_inr env up dt sp ch (m + 2) n ev hstep
    have e2 : Nat.succ (Nat.succ m) = m + 2 := rfl
    rw [e2, fitLoop_add_two, hstep, hev]
    intro i w p hi
    rcases i with _ | i
    · simp at hi
    · rw [List.getElem?_cons_succ] at hi
      obtain ⟨hlen, hb, he⟩ := ih i w p hi
      refine ⟨?_, hb, he⟩
      simp only [List.length_cons]
      omega

/-- `generate_response` either reaches the fit loop (started at 8) or fails a
precondition, returning an `"Error:"` string with an empty call trace. -/
lemma generate_response_split (env : Env) (up dt : String) (ch : List Msg) (sp : String) :
    generate_response env up dt ch sp = fitLoop env up dt sp ch 8 ∨
    ((generate_response env up dt ch sp).2 = [] ∧
      pyStartsWith (generate_response env up dt ch sp).1 "Error:" = true ∧
      pyStartsWith (generate_response env up dt ch sp).1 "Error" = true) := by
  unfold generate_response
  split
  · exact Or.inr ⟨rfl, by decide, by decide⟩
  · split
    · exact Or.inr ⟨rfl, by decide, by decide⟩
    · split
      · exact Or.inr ⟨rfl, by decide, by decide⟩
      · exact Or.inl rfl

/-! ## Concrete environments and histories used to evaluate the model -/

/-- Valid credentials, every prompt counts as 5 tokens, generation succeeds. -/
def envOk : Env := ⟨true, some "key", true, fun _ => .ok 5, fun _ => .text "The answer."⟩

/-- Valid credentials, prompts fit, but the generation response is blocked. -/
def envBlocked : Env := ⟨true, some "key", true, fun _ => .ok 5, fun _ => .blocked⟩

/-- Valid credentials, every prompt measures 2,000,000 tokens (over budget). -/
def envOverflow : Env :=
  ⟨true, some "key", true, fun _ => .ok 2000000, fun _ => .text "unreachable"⟩

/-- Valid credentials, but `model.count_tokens` raises. -/
def envCountRaises : Env :=
  ⟨true, some "key", true, fun _ => .error "boom", fun _ => .text "ok"⟩

/-- No configured credential. -/
def envNoKey : Env := ⟨false, none, false, fun _ => .ok 5, fun _ => .text "ok"⟩

/-- Prompts longer than 140 characters measure over budget, shorter ones fit,
and the generation response is blocked: with `histEight` the window-8 and
window-6 prompts overflow while the window-4 prompt fits. -/
def envLateBlocked : Env :=
  ⟨true, some "key", true,
   fun s => .ok (if 140 < s.length then 2000000 else 5), fun _ => .blocked⟩

/-- An eight-message chat history (four user/assistant pairs). -/
def histEight : List Msg :=
  [⟨"user", "a"⟩, ⟨"assistant", "b"⟩, ⟨"user", "c"⟩, ⟨"assistant", "d"⟩,
   ⟨"user", "e"⟩, ⟨"assistant", "f"⟩, ⟨"user", "g"⟩, ⟨"assistant", "h"⟩]

/-- A two-message chat history. -/
def histTwo : List Msg := [⟨"user", "hi"⟩, ⟨"assistant", "yo"⟩]

/-! ## Claims -/

/-- C1 (refuted by the code, window 0 takes the whole history).  The claim
says the loop uses the last `windowSize` messages and that `windowSize = 0`
takes none; but `chat_history[-history_limit:]` at `history_limit = 0` is
`chat_history[-0:]`, the WHOLE history.  Evaluated on an always-over-budget
run with a two-message history: the window-0 iteration (the last count event
of the trace) assembles its prompt from the full, non-empty history — its
history section is `"User: hi\nAssistant: yo"`, not the empty string. -/
theorem C1_window_zero_takes_whole_history :
    pySliceLast histTwo 0 = histTwo ∧
    formatHistory histTwo = "User: hi\nAssistant: yo" ∧
    (generate_response envOverflow "q" "doc" histTwo "sys").2.getLast? =
      some (.count 0 (full_prompt "sys" "User: hi\nAssistant: yo" "doc" "q")
        (.ok 2000000)) :=
  ⟨rfl, by decide, by decide⟩

/-- C2: in every execution of `generate_response`, a generation event in the
call trace is immediately preceded by a token-count event for the very same
prompt whose measured count is within `CONTEXT_WINDOW_LIMIT`; so generation
is never issued for a prompt that measured over budget, and only after its
count was measured and found to fit. -/
theorem C2_generation_only_after_fitting_count (env : Env) (up dt : String)
    (ch : List Msg) (sp : String) (i w : Nat) (p : String)
    (hi : ((generate_response env up dt ch sp).2)[i]? = some (.gen w p)) :
    1 ≤ i ∧ ∃ n, ((generate_response env up dt ch sp).2)[i - 1]? =
      some (.count w p (.ok n)) ∧ n ≤ CONTEXT_WINDOW_LIMIT := by
  rcases generate_response_split env up dt ch sp with h | ⟨h, _, _⟩
  · rw [h] at hi ⊢
    exact fitLoop_gen_preceded env up dt sp ch 8 i w p hi
  · rw [h] at hi
    simp at hi

theorem C2_witness :
    ((generate_response envOk "q" "d" [] "s").2)[1]? =
        some (.gen 8 (full_prompt "s" "" "d" "q")) ∧
    (1 ≤ 1 ∧ ∃ n, ((generate_response envOk "q" "d" [] "s").2)[1 - 1]? =
      some (.count 8 (full_prompt "s" "" "d" "q") (.ok n)) ∧
      n ≤ CONTEXT_WINDOW_LIMIT) :=
  ⟨rfl, C2_generation_only_after_fitting_count envOk "q" "d" [] "s" 1 8 _ rfl⟩

/-- C3: in every execution of `generate_response`, the visited history-window
sizes are `8, 6, …, 8 - 2k` for some `k ≤ 4`: the sequence starts at the
maximum of 8, decreases by exactly 2 at each overflow step, and never goes
below 0 (if a precondition fails, the loop is never entered). -/
theorem C3_window_sequence (env : Env) (up dt : String) (ch : List Msg) (sp : String) :
    (generate_response env up dt ch sp).2 = [] ∨
    ∃ k ≤ 4, windowSizes (generate_response env up dt ch sp).2 =
      (List.range (k + 1)).map (fun i => 8 - 2 * i) := by
  rcases generate_response_split env up dt ch sp with h | ⟨h, _, _⟩
  · right
    rw [h]
    obtain ⟨k, hk, hws⟩ := fitLoop_windowSizes env up dt sp ch 8
    exact ⟨k, by omega, hws⟩
  · exact Or.inl h

/-- C4: the fit loop of `generate_response` always terminates (the model is a
total function) and performs at most `8 / 2 + 1 = 5` iterations, counted as
token-count events in the call trace. -/
theorem C4_at_most_five_iterations (env : Env) (up dt : String) (ch : List Msg)
    (sp : String) :
    (windowSizes (generate_response env up dt ch sp).2).length ≤ 5 := by
  rcases generate_response_split env up dt ch sp with h | ⟨h, _, _⟩
  · rw [h]
    obtain ⟨k, hk, hws⟩ := fitLoop_windowSizes env up dt sp ch 8
    rw [hws, List.length_map, List.length_range]
    omega
  · rw [h]
    decide

/-- C5: with the credential and model preconditions satisfied, an empty
document makes `generate_response` return the empty-document error value
with an empty call trace — so before any token-count call is made. -/
theorem C5_empty_document_short_circuits (env : Env) (up : String) (ch : List Msg)
    (sp : String) (h1 : env.api_key_valid = true)
    (h2 : pyStrTruthy env.current_api_key = true) (h3 : env.modelInitialized = true) :
    generate_response env up "" ch sp = ("Error: No document content available.", []) := by
  simp [generate_response, h1, h2, h3]

theorem C5_witness :
    envOk.api_key_valid = true ∧ pyStrTruthy envOk.current_api_key = true ∧
    envOk.modelInitialized = true ∧
    generate_response envOk "q" "" [] "s" =
      ("Error: No document content available.", []) :=
  ⟨rfl, rfl, rfl, C5_empty_document_short_circuits envOk "q" [] "s" rfl rfl rfl⟩

/-- C6: whenever `generate_response` issues a generation call — at any window
size `w`, in particular also after overflow shrink steps — that generation
event is the last external call of the execution, so the loop never retries
or shrinks the history after a generation failure (only after token
overflow); and a blocked or raising generation makes the function return the
corresponding terminal error immediately. -/
theorem C6_generation_failure_terminal (env : Env) (up dt : String) (ch : List Msg)
    (sp : String) (i w : Nat) (p : String)
    (hi : ((generate_response env up dt ch sp).2)[i]? = some (.gen w p)) :
    i + 1 = (generate_response env up dt ch sp).2.length ∧
    (env.generate_content p = .blocked →
      (generate_response env up dt ch sp).1 = "Error: Response blocked or invalid.") ∧
    (∀ e, env.generate_content p = .exn e →
      (generate_response env up dt ch sp).1 =
        "Error during processing (history=" ++ toString w ++ "): " ++ e) := by
  rcases generate_response_split env up dt ch sp with h | ⟨h, _, _⟩
  · rw [h] at hi ⊢
    exact fitLoop_gen_terminal env up dt sp ch 8 i w p hi
  · rw [h] at hi
    simp at hi

set_option maxRecDepth 8192 in
theorem C6_witness :
    ((generate_response envLateBlocked "q" "d" histEight "s").2)[3]? =
        some (.gen 4 (attemptPrompt "q" "d" "s" histEight 4)) ∧
    3 + 1 = (generate_response envLateBlocked "q" "d" histEight "s").2.length ∧
    envLateBlocked.generate_content (attemptPrompt "q" "d" "s" histEight 4) =
      .blocked ∧
    (generate_response envLateBlocked "q" "d" histEight "s").1 =
      "Error: Response blocked or invalid." :=
  ⟨by decide,
   (C6_generation_failure_terminal envLateBlocked "q" "d" histEight "s" 3 4
      (attemptPrompt "q" "d" "s" histEight 4) (by decide)).1,
   rfl,
   (C6_generation_failure_terminal envLateBlocked "q" "d" histEight "s" 3 4
      (attemptPrompt "q" "d" "s" histEight 4) (by decide)).2.1 rfl⟩

/-- C7: for any system prompt, history window, document and question, the
assembled prompt is exactly the system section, then the history section,
then the document section, then the question section, in that fixed order. -/
theorem C7_four_sections_in_order (sp : String) (H : List Msg) (dt up : String) :
    full_prompt sp (formatHistory H) dt up =
      specSystemSection sp ++ specHistorySection (formatHistory H) ++
        specDocumentSection dt ++ specQuestionSection up :=
  full_prompt_sections sp (formatHistory H) dt up

/-- C8: every prompt assembled during one `generate_response` call carries the
identical (byte-equal) document section and system section in full; only the
history window `w` varies between iterations. -/
theorem C8_document_section_invariant (env : Env) (up dt : String) (ch : List Msg)
    (sp : String) (e : Event) (he : e ∈ (generate_response env up dt ch sp).2) :
    ∃ w, promptOf e =
      specSystemSection sp ++
        specHistorySection (formatHistory (pySliceLast ch w)) ++
        specDocumentSection dt ++ specQuestionSection up := by
  rcases generate_response_split env up dt ch sp with h | ⟨h, _, _⟩
  · rw [h] at he
    obtain ⟨w, hw⟩ := fitLoop_prompts env up dt sp ch 8 e he
    refine ⟨w, ?_⟩
    rw [hw]
    exact full_prompt_sections sp (formatHistory (pySliceLast ch w)) dt up
  · rw [h] at he
    simp at he

theorem C8_witness :
    (Event.count 8 (full_prompt "s" "" "d" "q") (.ok 5)) ∈
        (generate_response envOk "q" "d" [] "s").2 ∧
    ∃ w, promptOf (Event.count 8 (full_prompt "s" "" "d" "q") (.ok 5)) =
      specSystemSection "s" ++
        specHistorySection (formatHistory (pySliceLast [] w)) ++
        specDocumentSection "d" ++ specQuestionSection "q" :=
  ⟨by decide, C8_document_section_invariant envOk "q" "d" [] "s" _ (by decide)⟩

/-- C9: a response whose text starts with the reserved `"Error:"` marker is
never appended to the persisted chat history: any `"Error:"`-marked message
found in the history after a chat turn was already there before the turn
(or is the user's own typed prompt), so assistant error text never reaches a
subsequent `generate_response` call. -/
theorem C9_error_marked_never_persisted (env : Env) (messages : List Msg)
    (prompt dt sp : String) (m : Msg)
    (hm : m ∈ (chatTurn env messages prompt dt sp).1)
    (hErr : pyStartsWith m.content "Error:" = true) :
    m ∈ messages ++ [⟨"user", prompt⟩] := by
  simp only [chatTurn] at hm
  split at hm
  · exact hm
  · split at hm
    · exact hm
    · rename_i hresp
      rw [List.mem_append] at hm
      rcases hm with hm | hm
      · exact hm
      · simp only [List.mem_singleton] at hm
        subst hm
        exact absurd hErr hresp

theorem C9_witness :
    (⟨"user", "Error: fake"⟩ : Msg) ∈
        (chatTurn envNoKey [] "Error: fake" "doc" "s").1 ∧
    pyStartsWith (Msg.content ⟨"user", "Error: fake"⟩) "Error:" = true ∧
    (⟨"user", "Error: fake"⟩ : Msg) ∈ ([] : List Msg) ++ [⟨"user", "Error: fake"⟩] :=
  ⟨by decide, by decide,
    C9_error_marked_never_persisted envNoKey [] "Error: fake" "doc" "s" _
      (by decide) (by decide)⟩

/-- C10 (refuted as stated): the claim says every failure path returns a
string beginning with `"Error:"`; but when `model.count_tokens` raises, the
code returns `"Error during processing (history=8): …"`, which does NOT
begin with `"Error:"` — so the caller's prefix test misses this failure. -/
theorem C10_counterexample :
    (generate_response envCountRaises "q" "doc" [] "sys").1 =
      "Error during processing (history=8): boom" ∧
    pyStartsWith (generate_response envCountRaises "q" "doc" [] "sys").1
      "Error:" = false :=
  ⟨rfl, by decide⟩

/-- C10 (amended): `generate_response` never raises (it is a total function
of its inputs and oracles), and every return value either begins with
`"Error"` or is the text of a successful generation call recorded in the
trace; the exception path begins with `"Error during processing"`, not with
the `"Error:"` marker the caller tests for. -/
theorem C10_amended_failures_start_with_Error (env : Env) (up dt : String)
    (ch : List Msg) (sp : String) :
    pyStartsWith (generate_response env up dt ch sp).1 "Error" = true ∨
    ∃ w p, Event.gen w p ∈ (generate_response env up dt ch sp).2 ∧
      env.generate_content p = .text (generate_response env up dt ch sp).1 := by
  rcases generate_response_split env up dt ch sp with h | ⟨_, _, h3⟩
  · rw [h]
    exact fitLoop_result env up dt sp ch 8
  · exact Or.inl h3

end CAG
